import Mathlib

/-!
Verification of the Network-Simulation repository (`Network_Project.ipynb`).

The notebook contains two simulation engines:

* `SocialDynamicsSimulation` — scalar opinions in `[0,1]`; its `update`
  method either creates a new edge (probability 0.01) or applies the
  opinion/weight interaction rule to one randomly chosen edge.
* `NetworkSimulationExtension` — per-topic opinion vectors (numpy arrays),
  optional "flexibility" scaling `delta`, mean-of-topics weight update,
  clamping to `[0,1]` when `delta` is truthy, bounded (50-attempt)
  edge-creation retry loop, and normally-distributed new edge weights.

The embedding below follows the Python statement by statement.  Numbers are
modelled as `ℚ` (exact arithmetic standing in for IEEE doubles).  Randomness
(branch selection, `random.choice` edge index, `random.sample` candidate
pairs, the normal sample used as a fresh edge weight) is injected as explicit
arguments.  Node opinions are total functions `ℕ → ℚ` (scalar) respectively
`ℕ → List ℚ` (vector); the edge list carries the weight attribute.

A crucial point of fidelity for the vector engine: in the Python code
`o_a, o_b = [self.graph.nodes[n]['opinions'] for n in edge]` binds the two
stored numpy arrays themselves, and the subsequent `+=` / `-=` mutate them
in place.  Consequently `delta_w`, computed afterwards from `o_a - o_b`,
reads the POST-update opinions.  The embedding reproduces this aliasing
exactly (see `vecDeltaW`).
-/

namespace NetworkSimulation

/-- An edge record: the two endpoint identities and the weight attribute. -/
abbrev Edge : Type := ℕ × ℕ × ℚ

/-- Undirected edge-membership test, mirroring `(u, v) in self.graph.edges`
for a networkx graph (a pair is connected in either orientation). -/
def isEdge (es : List Edge) (u v : ℕ) : Bool :=
  es.any fun e => (e.1 == u && e.2.1 == v) || (e.1 == v && e.2.1 == u)

/-- The errors named by the specification for the stepping operation. -/
inductive SimError : Type where
  | emptyGraph
  deriving DecidableEq

/-- The error the specification claims construction can raise. -/
inductive ConfigError : Type where
  | configError
  deriving DecidableEq

/-- One call of an `update` method, with the randomness injected:
`newEdge cands wNew` selects the edge-creation branch and provides the
stream of sampled candidate pairs (each drawn by `random.sample(nodes, 2)`)
together with the sampled weight for the created edge;
`interact k` selects the interaction branch and provides the random index
used to choose an edge. -/
inductive StepChoice : Type where
  | newEdge (cands : List (ℕ × ℕ)) (wNew : ℚ)
  | interact (k : ℕ)

/-- Coefficients stored by `SocialDynamicsSimulation.__init__`. -/
structure SDConfig : Type where
  network_size : ℕ
  alpha : ℚ
  beta : ℚ
  gamma : ℚ
  deriving DecidableEq

/-- Mutable state of the scalar engine: the `opinion` node attribute, the
edge list with `weight` attributes, and the step counter `self.step`. -/
structure ScalarState : Type where
  opinion : ℕ → ℚ
  edges : List Edge
  step : ℕ

/-- `SocialDynamicsSimulation.__init__`: plain attribute assignments; the
body contains no validation and no raise statement.  The `Except` channel
records the failure mode the specification claims; the code never uses it. -/
def SocialDynamicsSimulation.init (network_size : ℕ) (alpha beta gamma : ℚ) :
    Except ConfigError SDConfig :=
  .ok { network_size := network_size, alpha := alpha, beta := beta, gamma := gamma }

/-- The edge returned by `random.choice(list(self.graph.edges))`, with the
random draw injected as an index `k` (reduced modulo the length; for a
nonempty list this is a uniform choice as `k` ranges over indices). -/
def pickEdge (es : List Edge) (k : ℕ) : Edge :=
  es.getD (k % es.length) (0, 0, 0)

/-- The post-update weight of the interacting edge in the scalar engine:
`weight + self.beta * weight * (1-weight) * (1 - self.gamma * abs(opinions[0] - opinions[1]))`,
where `opinions` is the snapshot list taken before any node is mutated. -/
def scalarFinalW (cfg : SDConfig) (s : ScalarState) (k : ℕ) : ℚ :=
  let e := pickEdge s.edges k
  let w := e.2.2
  let oi := s.opinion e.1
  let oj := s.opinion e.2.1
  w + cfg.beta * w * (1 - w) * (1 - cfg.gamma * |oi - oj|)

/-- The interaction branch of `SocialDynamicsSimulation.update` (the `else`
arm): select edge, update both endpoint opinions from the pre-interaction
snapshot `opinions`, write the new weight, and drop the edge if the new
weight is below `0.05`.  The node at `edge[1]` is written second. -/
def scalarInteract (cfg : SDConfig) (s : ScalarState) (k : ℕ) : ScalarState :=
  let e := pickEdge s.edges k
  let idx := k % s.edges.length
  let oi := s.opinion e.1
  let oj := s.opinion e.2.1
  let oi' := oi + cfg.alpha * e.2.2 * (oj - oi)
  let oj' := oj + cfg.alpha * e.2.2 * (oi - oj)
  let w' := scalarFinalW cfg s k
  { opinion := fun n => if n = e.2.1 then oj' else if n = e.1 then oi' else s.opinion n
    edges := if w' < 1/20 then s.edges.eraseIdx idx else s.edges.set idx (e.1, e.2.1, w')
    step := s.step }

/-- `SocialDynamicsSimulation.update`.  The edge-creation branch keeps
drawing candidate pairs until one is not yet connected (the unbounded
`while True` loop is modelled as one pass over the injected candidate
stream) and adds it with weight `0.5`.  The interaction branch fails on an
empty edge list — `random.choice` raises before any mutation, so the
returned state is the input state and the step counter is not incremented.
The returned pair is (object state after the call, raised error if any). -/
def SocialDynamicsSimulation.update (cfg : SDConfig) (s : ScalarState) :
    StepChoice → ScalarState × Option SimError
  | .newEdge cands _ =>
    match cands.find? (fun p => !(isEdge s.edges p.1 p.2)) with
    | some p => ({ s with edges := s.edges ++ [(p.1, p.2, 1/2)], step := s.step + 1 }, none)
    | none => ({ s with step := s.step + 1 }, none)
  | .interact k =>
    if s.edges.isEmpty then (s, some .emptyGraph)
    else ({ scalarInteract cfg s k with step := s.step + 1 }, none)

/-- Coefficients stored by `NetworkSimulationExtension.__init__`. -/
structure ExtConfig : Type where
  n_size : ℕ
  m_nodes : ℕ
  alpha : ℚ
  beta : ℚ
  gamma : ℚ
  delta : Option ℚ
  n_topics : ℕ
  deriving DecidableEq

/-- Mutable state of the vector engine: the `opinions` arrays, the edge
list with `weight` attributes, and the step counter. -/
structure VecState : Type where
  opinions : ℕ → List ℚ
  edges : List Edge
  step : ℕ

/-- `NetworkSimulationExtension.__init__`: plain attribute assignments, no
validation, no raise. -/
def NetworkSimulationExtension.init (n_size m_nodes : ℕ) (alpha beta gamma : ℚ)
    (delta : Option ℚ) (n_topics : ℕ) : Except ConfigError ExtConfig :=
  .ok { n_size := n_size, m_nodes := m_nodes, alpha := alpha, beta := beta,
        gamma := gamma, delta := delta, n_topics := n_topics }

/-- Python truthiness of `self.delta`: `None` and `0` are falsy; the code
guards both the flexibility scaling and the clamping with it. -/
def flexActive : Option ℚ → Bool
  | none => false
  | some d => d != 0

/-- `np.clip(x, 0, 1)` on one scalar. -/
def clip01 (x : ℚ) : ℚ := min 1 (max 0 x)

/-- `np.clip(a, 0, 1)` elementwise on an opinion array. -/
def clipList (o : List ℚ) : List ℚ := o.map clip01

/-- `self.delta * np.maximum(0.05, np.minimum(o, np.absolute(o - 1)))`:
the elementwise flexibility factor of one node's opinion array. -/
def flexFactor (d : ℚ) (o : List ℚ) : List ℚ :=
  o.map fun x => d * max (1/20) (min x |x - 1|)

/-- The factor-adjusted opinion increment
`delta_o * (1 if not self.delta else (self.delta * np.maximum(...)))`,
reading the node's current opinion array `o`. -/
def scaledDeltaO : Option ℚ → List ℚ → List ℚ → List ℚ
  | none, _, dO => dO
  | some d, o, dO => if d = 0 then dO else List.zipWith (fun x y => x * y) dO (flexFactor d o)

/-- `delta_o = self.alpha * wght * (o_b - o_a)` elementwise, computed once
from the pre-interaction arrays (a fresh array, not an alias). -/
def vecDeltaO (cfg : ExtConfig) (s : VecState) (k : ℕ) : List ℚ :=
  let e := pickEdge s.edges k
  List.zipWith (fun b a => cfg.alpha * e.2.2 * (b - a)) (s.opinions e.2.1) (s.opinions e.1)

/-- Opinion store after the first in-place statement
`self.graph.nodes[edge[0]]['opinions'] += delta_o * (...)`. -/
def vecOpAfterU (cfg : ExtConfig) (s : VecState) (k : ℕ) : ℕ → List ℚ :=
  let e := pickEdge s.edges k
  let oa := s.opinions e.1
  let newOa := List.zipWith (fun x y => x + y) oa (scaledDeltaO cfg.delta oa (vecDeltaO cfg s k))
  fun n => if n = e.1 then newOa else s.opinions n

/-- Opinion store after the second in-place statement
`self.graph.nodes[edge[1]]['opinions'] -= delta_o * (...)`, whose right-hand
side reads the store left by the first statement. -/
def vecOpAfterUV (cfg : ExtConfig) (s : VecState) (k : ℕ) : ℕ → List ℚ :=
  let e := pickEdge s.edges k
  let f := vecOpAfterU cfg s k
  let ob := f e.2.1
  let newOb := List.zipWith (fun x y => x - y) ob (scaledDeltaO cfg.delta ob (vecDeltaO cfg s k))
  fun n => if n = e.2.1 then newOb else f n

/-- `np.mean` of a one-dimensional array. -/
def listMean (l : List ℚ) : ℚ := l.sum / l.length

/-- `delta_w = self.beta * wght * (1-wght) * (1 - self.gamma * np.mean(np.absolute(o_a - o_b)))`.
Because the names `o_a`, `o_b` alias the stored numpy arrays and the two
`+=`/`-=` statements above mutated those arrays in place, this reads the
POST-update opinion arrays. -/
def vecDeltaW (cfg : ExtConfig) (s : VecState) (k : ℕ) : ℚ :=
  let e := pickEdge s.edges k
  let w := e.2.2
  let oa := vecOpAfterUV cfg s k e.1
  let ob := vecOpAfterUV cfg s k e.2.1
  cfg.beta * w * (1 - w) * (1 - cfg.gamma * listMean (List.zipWith (fun a b => |a - b|) oa ob))

/-- The weight after `self.graph.edges[edge]['weight'] += delta_w`. -/
def vecW1 (cfg : ExtConfig) (s : VecState) (k : ℕ) : ℚ :=
  (pickEdge s.edges k).2.2 + vecDeltaW cfg s k

/-- The weight finally stored on the interacting edge: clamped into `[0,1]`
when `self.delta` is truthy, otherwise left as is. -/
def vecFinalW (cfg : ExtConfig) (s : VecState) (k : ℕ) : ℚ :=
  if flexActive cfg.delta then clip01 (vecW1 cfg s k) else vecW1 cfg s k

/-- Final opinion store of the interaction: when `self.delta` is truthy the
two endpoint arrays are reassigned to their clipped values (node `edge[0]`
first, then node `edge[1]`). -/
def vecOpFinal (cfg : ExtConfig) (s : VecState) (k : ℕ) : ℕ → List ℚ :=
  let e := pickEdge s.edges k
  let f := vecOpAfterUV cfg s k
  if flexActive cfg.delta then
    let g := fun n => if n = e.1 then clipList (f e.1) else f n
    fun n => if n = e.2.1 then clipList (g e.2.1) else g n
  else f

/-- The interaction branch of `NetworkSimulationExtension.update`: opinion
updates, weight update, conditional clamping, and removal of the edge when
its stored weight fell below `0.05`. -/
def vecInteract (cfg : ExtConfig) (s : VecState) (k : ℕ) : VecState :=
  let e := pickEdge s.edges k
  let idx := k % s.edges.length
  { opinions := vecOpFinal cfg s k
    edges := if vecFinalW cfg s k < 1/20 then s.edges.eraseIdx idx
             else s.edges.set idx (e.1, e.2.1, vecFinalW cfg s k)
    step := s.step }

/-- `NetworkSimulationExtension.update`.  The edge-creation branch tries at
most 50 sampled candidate pairs (`for _ in range(50)`), adds the first pair
that is not yet connected with the sampled normal weight, and silently
skips creation when all 50 attempts are connected pairs.  The interaction
branch fails on an empty edge list exactly as in the scalar engine. -/
def NetworkSimulationExtension.update (cfg : ExtConfig) (s : VecState) :
    StepChoice → VecState × Option SimError
  | .newEdge cands wNew =>
    match (cands.take 50).find? (fun p => !(isEdge s.edges p.1 p.2)) with
    | some p => ({ s with edges := s.edges ++ [(p.1, p.2, wNew)], step := s.step + 1 }, none)
    | none => ({ s with step := s.step + 1 }, none)
  | .interact k =>
    if s.edges.isEmpty then (s, some .emptyGraph)
    else ({ vecInteract cfg s k with step := s.step + 1 }, none)

/-- Modelled from the spec: the weight the vector engine would store if, as
spec section 4.3 states, the weight delta were computed from the
pre-interaction snapshot — `Δw = beta*w*(1-w)*(1 - gamma * mean_t(|o_i,t - o_j,t|))`
with the PRE-update opinions of both endpoints.  The code's `vecFinalW`
instead reads the opinion arrays after the in-place `+=`/`-=`; this
definition exists only to be compared against it. -/
def vecFinalWSpec (cfg : ExtConfig) (s : VecState) (k : ℕ) : ℚ :=
  let e := pickEdge s.edges k
  let w := e.2.2
  let dw := cfg.beta * w * (1 - w) *
    (1 - cfg.gamma * listMean (List.zipWith (fun a b => |a - b|)
      (s.opinions e.1) (s.opinions e.2.1)))
  if flexActive cfg.delta then clip01 (w + dw) else w + dw

/-- The notebook's scenario coefficients `alpha=0.03, beta=0.3, gamma=4`
for the scalar engine. -/
def sdCfgBase : SDConfig := ⟨50, 3/100, 3/10, 4⟩

/-- The same coefficients for the vector engine, one topic, `delta=None`. -/
def extCfgBase : ExtConfig := ⟨50, 2, 3/100, 3/10, 4, none, 1⟩

/-- Two nodes with one-topic opinions `[1.0]` and `[0.0]` joined by an edge
of weight `0.5`. -/
def vecSt1 : VecState := ⟨fun n => if n = 0 then [1] else [0], [(0, 1, 1/2)], 0⟩

/-- Two nodes with scalar opinions `1.0` and `0.0` joined by an edge of
weight `0.5` — the scalar mirror of `vecSt1`. -/
def scSt1 : ScalarState := ⟨fun n => if n = 0 then 1 else 0, [(0, 1, 1/2)], 0⟩

/-- The spec's section 8 scenario: `o_i=0.3`, `o_j=0.0`, `w=0.25`. -/
def scSt3 : ScalarState := ⟨fun n => if n = 0 then 3/10 else 0, [(0, 1, 1/4)], 0⟩

/-- Coefficients with `gamma=1`, `alpha=0.5`, `beta=0.3` and flexibility
`delta=20` (all inside the spec's stated parameter domains; the notebook's
own analysis sweeps `delta` up to 20). -/
def extCfgFlex : ExtConfig := ⟨50, 2, 1/2, 3/10, 1, some 20, 1⟩

/-- Two nodes with one-topic opinions `[0.25]` and `[0.75]` joined by an
edge of weight `0.9` — all values inside `[0,1]`. -/
def vecSt6 : VecState := ⟨fun n => if n = 0 then [1/4] else [3/4], [(0, 1, 9/10)], 0⟩

/-- Coefficients with flexibility `delta=3` configured. -/
def extCfgDelta3 : ExtConfig := ⟨50, 2, 3/100, 3/10, 4, some 3, 1⟩

/-- A state with no edges (all opinions `[0.0]`). -/
def vecStEmpty : VecState := ⟨fun _ => [0], [], 0⟩

/-- A scalar state with no edges (all opinions `0.0`). -/
def scStEmpty : ScalarState := ⟨fun _ => 0, [], 0⟩

/-- Reading at the position of the distinguished element. -/
theorem getD_append_cons {α : Type} (l₁ l₂ : List α) (x d : α) :
    (l₁ ++ x :: l₂).getD l₁.length d = x := by
  induction l₁ with
  | nil => rfl
  | cons a l ih => simpa using ih

/-- Erasing at the position of the distinguished element. -/
theorem eraseIdx_append_cons {α : Type} (l₁ l₂ : List α) (x : α) :
    (l₁ ++ x :: l₂).eraseIdx l₁.length = l₁ ++ l₂ := by
  induction l₁ with
  | nil => rfl
  | cons a l ih => simp [List.eraseIdx, ih]

/-- Writing at the position of the distinguished element. -/
theorem set_append_cons {α : Type} (l₁ l₂ : List α) (x y : α) :
    (l₁ ++ x :: l₂).set l₁.length y = l₁ ++ y :: l₂ := by
  induction l₁ with
  | nil => rfl
  | cons a l ih => simp [ih]

/-- The index of the distinguished element survives the modulo reduction. -/
theorem length_mod_append_cons {α : Type} (l₁ l₂ : List α) (x : α) :
    l₁.length % (l₁ ++ x :: l₂).length = l₁.length := by
  apply Nat.mod_eq_of_lt
  simp only [List.length_append, List.length_cons]
  omega

theorem isEdge_append (a b : List Edge) (u v : ℕ) :
    isEdge (a ++ b) u v = (isEdge a u v || isEdge b u v) := by
  simp [isEdge, List.any_append]

theorem isEdge_cons (e : Edge) (es : List Edge) (u v : ℕ) :
    isEdge (e :: es) u v
      = (((e.1 == u && e.2.1 == v) || (e.1 == v && e.2.1 == u)) || isEdge es u v) := by
  simp [isEdge]

theorem clip01_nonneg (x : ℚ) : 0 ≤ clip01 x := by
  simp [clip01]

theorem clip01_le_one (x : ℚ) : clip01 x ≤ 1 := by
  simp [clip01]

theorem mem_clipList {x : ℚ} {o : List ℚ} (h : x ∈ clipList o) : 0 ≤ x ∧ x ≤ 1 := by
  obtain ⟨y, -, rfl⟩ := List.mem_map.mp h
  exact ⟨clip01_nonneg y, clip01_le_one y⟩

/-- C1: the claim that the vector variant's weight delta is computed from
the PRE-update opinion snapshot fails on the code: `o_a` and `o_b` alias
the stored numpy arrays, which the in-place `+=`/`-=` statements mutate
before `delta_w` is read.  With `alpha=0.03, beta=0.3, gamma=4`,
`delta=None`, one topic, opinions `1.0`/`0.0` and weight `0.5`, the engine
stores weight `71/250` while the spec's pre-snapshot formula gives `11/40`. -/
theorem c1_vector_weight_delta_uses_post_update_opinions :
    vecFinalW extCfgBase vecSt1 0 = 71/250
      ∧ vecFinalWSpec extCfgBase vecSt1 0 = 11/40
      ∧ vecFinalW extCfgBase vecSt1 0 ≠ vecFinalWSpec extCfgBase vecSt1 0 := by
  have h1 : vecFinalW extCfgBase vecSt1 0 = 71/250 := by
    norm_num [vecFinalW, extCfgBase, vecSt1, vecW1, vecDeltaW, vecOpAfterUV, vecOpAfterU,
      vecDeltaO, scaledDeltaO, flexActive, pickEdge, listMean, clipList, clip01, flexFactor,
      abs_eq_max_neg, max_def, min_def]
  have h2 : vecFinalWSpec extCfgBase vecSt1 0 = 11/40 := by
    norm_num [vecFinalWSpec, extCfgBase, vecSt1, flexActive, pickEdge, listMean, clip01,
      abs_eq_max_neg, max_def, min_def]
  exact ⟨h1, h2, by rw [h1, h2]; norm_num⟩

/-- C3: the spec's scenario value `Δw = -0.03375` is wrong arithmetic.  At
`o_i=0.3, o_j=0.0, w=0.25, alpha=0.03, beta=0.3, gamma=4` the scalar engine
stores weight `191/800`, i.e. `Δw = 191/800 - 1/4 = -0.01125`, which is not
within `1e-9` of the claimed `-0.03375`. -/
theorem c3_scalar_scenario_delta_w_claim_fails :
    scalarFinalW sdCfgBase scSt3 0 = 191/800
      ∧ ¬ (|(191:ℚ)/800 - 1/4 - (-27/800)| ≤ 1/1000000000) := by
  constructor
  · norm_num [scalarFinalW, sdCfgBase, scSt3, pickEdge, abs_eq_max_neg, max_def, min_def]
  · norm_num [abs_eq_max_neg, max_def, min_def]

/-- C3 amended: with the same inputs the engine computes
`Δo = -0.00225` (so the two opinions become `0.3 - 0.00225` and
`0.0 + 0.00225`) and `Δw = -0.01125` (not `-0.03375`), each exactly — so in
particular within the claimed `1e-9` tolerance. -/
theorem c3_amended_scenario_values :
    (scalarInteract sdCfgBase scSt3 0).opinion 0 = 3/10 + (-(9:ℚ)/4000)
      ∧ (scalarInteract sdCfgBase scSt3 0).opinion 1 = 0 - (-(9:ℚ)/4000)
      ∧ scalarFinalW sdCfgBase scSt3 0 = 1/4 + (-(9:ℚ)/800)
      ∧ |(scalarInteract sdCfgBase scSt3 0).opinion 0 - (3/10 - 225/100000)| ≤ 1/1000000000
      ∧ |scalarFinalW sdCfgBase scSt3 0 - (1/4 - 1125/100000)| ≤ 1/1000000000 := by
  have h0 : (scalarInteract sdCfgBase scSt3 0).opinion 0 = 3/10 + (-(9:ℚ)/4000) := by
    norm_num [scalarInteract, scalarFinalW, sdCfgBase, scSt3, pickEdge,
      abs_eq_max_neg, max_def, min_def]
  have h1 : (scalarInteract sdCfgBase scSt3 0).opinion 1 = 0 - (-(9:ℚ)/4000) := by
    norm_num [scalarInteract, scalarFinalW, sdCfgBase, scSt3, pickEdge,
      abs_eq_max_neg, max_def, min_def]
  have h2 : scalarFinalW sdCfgBase scSt3 0 = 1/4 + (-(9:ℚ)/800) := by
    norm_num [scalarFinalW, sdCfgBase, scSt3, pickEdge, abs_eq_max_neg, max_def, min_def]
  refine ⟨h0, h1, h2, ?_, ?_⟩
  · rw [h0]; norm_num [abs_eq_max_neg, max_def]
  · rw [h2]; norm_num [abs_eq_max_neg, max_def]

/-- C6: the claim fails on the vector variant.  With `gamma = 1 ≤ 1`,
opinions `0.25`/`0.75` in `[0,1]`, weight `0.9` in `[0,1]` and parameters
inside the spec's domains (`alpha=0.5, beta=0.3, delta=20`), the
post-update weight `3519/4000` is strictly BELOW the pre-update weight
`0.9`: the in-place opinion updates overshoot outside `[0,1]` under the
flexibility scaling, and the weight delta reads those post-update values. -/
theorem c6_weight_decreases_despite_gamma_le_one :
    extCfgFlex.gamma ≤ 1
      ∧ vecFinalW extCfgFlex vecSt6 0 = 3519/4000
      ∧ vecFinalW extCfgFlex vecSt6 0 < 9/10 := by
  have h : vecFinalW extCfgFlex vecSt6 0 = 3519/4000 := by
    norm_num [vecFinalW, extCfgFlex, vecSt6, vecW1, vecDeltaW, vecOpAfterUV, vecOpAfterU,
      vecDeltaO, scaledDeltaO, flexActive, pickEdge, listMean, clipList, clip01, flexFactor,
      abs_eq_max_neg, max_def, min_def]
  refine ⟨by norm_num [extCfgFlex], h, by rw [h]; norm_num⟩

/-- C9: construction does not validate: with `n_topics = 0 < 1` and
`alpha = -1 < 0` the constructor succeeds and stores the values verbatim —
no `ConfigError` is raised. -/
theorem c9_construction_accepts_invalid_coefficients :
    NetworkSimulationExtension.init 50 2 (-1) (3/10) 4 none 0
      = .ok ⟨50, 2, -1, 3/10, 4, none, 0⟩ := rfl

/-- C9 amended: both constructors are plain attribute assignments: every
argument combination — out-of-range coefficients included — is accepted and
stored verbatim, and no validation happens at construction (nor anywhere
else: no `ConfigError` is ever produced). -/
theorem c9_amended_constructors_never_validate (network_size : ℕ)
    (alpha beta gamma : ℚ) (n_size m_nodes : ℕ) (a b g : ℚ) (d : Option ℚ) (t : ℕ) :
    SocialDynamicsSimulation.init network_size alpha beta gamma
        = .ok ⟨network_size, alpha, beta, gamma⟩
      ∧ NetworkSimulationExtension.init n_size m_nodes a b g d t
        = .ok ⟨n_size, m_nodes, a, b, g, d, t⟩ :=
  ⟨rfl, rfl⟩

/-- C10: with one topic and `delta` absent the two variants do NOT agree:
from the same pre-state (opinions `1.0`/`0.0`, weight `0.5`, coefficients
`alpha=0.03, beta=0.3, gamma=4`) the scalar engine stores weight `11/40`
but the vector engine stores `71/250` (its weight delta reads the mutated
opinion arrays).  The endpoint opinions do agree on this input; the stored
weights differ. -/
theorem c10_scalar_vector_post_states_differ :
    scalarFinalW sdCfgBase scSt1 0 = 11/40
      ∧ vecFinalW extCfgBase vecSt1 0 = 71/250
      ∧ ((11:ℚ)/40 ≠ 71/250) := by
  refine ⟨?_, ?_, by norm_num⟩
  · norm_num [scalarFinalW, sdCfgBase, scSt1, pickEdge, abs_eq_max_neg, max_def, min_def]
  · norm_num [vecFinalW, extCfgBase, vecSt1, vecW1, vecDeltaW, vecOpAfterUV, vecOpAfterU,
      vecDeltaO, scaledDeltaO, flexActive, pickEdge, listMean, clipList, clip01, flexFactor,
      abs_eq_max_neg, max_def, min_def]

/-- C4: one scalar interaction is zero-sum in opinions: both endpoint
opinions are written from the same pre-interaction snapshot with opposite
deltas, so their sum is conserved (for any opinions and any weight in
`[0,1]`). -/
theorem c4_scalar_opinion_sum_conserved (cfg : SDConfig) (s : ScalarState) (k : ℕ)
    (u v : ℕ) (w : ℚ) (he : pickEdge s.edges k = (u, v, w)) (huv : u ≠ v)
    (_h0 : 0 ≤ w) (_h1 : w ≤ 1) :
    (scalarInteract cfg s k).opinion u + (scalarInteract cfg s k).opinion v
      = s.opinion u + s.opinion v := by
  simp only [scalarInteract, he]
  simp only [huv, if_true, if_false, ite_true, ite_false, if_neg huv, if_pos rfl]
  ring

/-- Witness for C4 at the concrete state `scSt1` (opinions `1.0`/`0.0`,
edge weight `0.5`). -/
theorem c4_witness :
    pickEdge scSt1.edges 0 = (0, 1, 1/2) ∧ (0 : ℕ) ≠ 1
      ∧ 0 ≤ (1:ℚ)/2 ∧ (1:ℚ)/2 ≤ 1
      ∧ (scalarInteract sdCfgBase scSt1 0).opinion 0
          + (scalarInteract sdCfgBase scSt1 0).opinion 1
        = scSt1.opinion 0 + scSt1.opinion 1 := by
  have he : pickEdge scSt1.edges 0 = (0, 1, 1/2) := rfl
  have huv : (0 : ℕ) ≠ 1 := by decide
  have h0 : 0 ≤ (1:ℚ)/2 := by norm_num
  have h1 : (1:ℚ)/2 ≤ 1 := by norm_num
  exact ⟨he, huv, h0, h1, c4_scalar_opinion_sum_conserved sdCfgBase scSt1 0 0 1 (1/2) he huv h0 h1⟩

/-- C7: when the interaction branch is selected on a state with no edges,
both engines fail (`random.choice` raises before any mutation, modelled as
the `emptyGraph` error) and the returned object state — graph and step
counter included — is exactly the input state. -/
theorem c7_empty_graph_failure_leaves_state_unchanged (cfgS : SDConfig) (cfgV : ExtConfig)
    (s : ScalarState) (t : VecState) (k k' : ℕ)
    (hs : s.edges = []) (ht : t.edges = []) :
    SocialDynamicsSimulation.update cfgS s (.interact k) = (s, some .emptyGraph)
      ∧ NetworkSimulationExtension.update cfgV t (.interact k') = (t, some .emptyGraph) := by
  constructor
  · simp [SocialDynamicsSimulation.update, hs]
  · simp [NetworkSimulationExtension.update, ht]

/-- Witness for C7 at states with empty edge sets. -/
theorem c7_witness :
    scStEmpty.edges = [] ∧ vecStEmpty.edges = []
      ∧ SocialDynamicsSimulation.update sdCfgBase scStEmpty (.interact 0)
          = (scStEmpty, some .emptyGraph)
      ∧ NetworkSimulationExtension.update extCfgBase vecStEmpty (.interact 0)
          = (vecStEmpty, some .emptyGraph) := by
  have h := c7_empty_graph_failure_leaves_state_unchanged sdCfgBase extCfgBase
    scStEmpty vecStEmpty 0 0 rfl rfl
  exact ⟨rfl, rfl, h.1, h.2⟩

/-- C8: the edge-creation branch never adds a self-loop (the candidate
pairs come from `random.sample(nodes, 2)`, hence have distinct endpoints)
and never a duplicate of an existing edge (the candidate is only accepted
when it fails the membership test), in either variant; and in the vector
variant, when every candidate pair is already connected (as in a complete
graph) the 50-attempt loop exhausts and the edge set is left unchanged. -/
theorem c8_new_edge_branch_safety (cfgS : SDConfig) (cfgV : ExtConfig)
    (s : ScalarState) (t : VecState) (cands : List (ℕ × ℕ)) (wN : ℚ)
    (hd : ∀ p ∈ cands, p.1 ≠ p.2) :
    (∀ e ∈ (SocialDynamicsSimulation.update cfgS s (.newEdge cands wN)).1.edges,
        e ∈ s.edges ∨ (e.1 ≠ e.2.1 ∧ isEdge s.edges e.1 e.2.1 = false))
      ∧ (∀ e ∈ (NetworkSimulationExtension.update cfgV t (.newEdge cands wN)).1.edges,
        e ∈ t.edges ∨ (e.1 ≠ e.2.1 ∧ isEdge t.edges e.1 e.2.1 = false))
      ∧ ((∀ p ∈ cands, isEdge t.edges p.1 p.2 = true) →
        (NetworkSimulationExtension.update cfgV t (.newEdge cands wN)).1.edges = t.edges) := by
  refine ⟨?_, ?_, ?_⟩
  · intro e he
    rcases hfind : cands.find? (fun p => !(isEdge s.edges p.1 p.2)) with _ | p
    · simp only [SocialDynamicsSimulation.update, hfind] at he
      exact .inl he
    · simp only [SocialDynamicsSimulation.update, hfind, List.mem_append,
        List.mem_singleton] at he
      rcases he with he | he
      · exact .inl he
      · have hp := List.find?_some hfind
        have hmem := List.mem_of_find?_eq_some hfind
        subst he
        exact .inr ⟨hd p hmem, by simpa using hp⟩
  · intro e he
    rcases hfind : (cands.take 50).find? (fun p => !(isEdge t.edges p.1 p.2)) with _ | p
    · simp only [NetworkSimulationExtension.update, hfind] at he
      exact .inl he
    · simp only [NetworkSimulationExtension.update, hfind, List.mem_append,
        List.mem_singleton] at he
      rcases he with he | he
      · exact .inl he
      · have hp := List.find?_some hfind
        have hmem := List.take_subset 50 cands (List.mem_of_find?_eq_some hfind)
        subst he
        exact .inr ⟨hd p hmem, by simpa using hp⟩
  · intro hall
    have hnone : (cands.take 50).find? (fun p => !(isEdge t.edges p.1 p.2)) = none := by
      rw [List.find?_eq_none]
      intro p hp
      simp [hall p (List.take_subset 50 cands hp)]
    simp [NetworkSimulationExtension.update, hnone]

/-- Witness for C8: one candidate pair `(0, 1)` with distinct endpoints,
applied to the one-edge states `scSt1` and `vecSt1`. -/
theorem c8_witness :
    (∀ p ∈ [((0:ℕ), (1:ℕ))], p.1 ≠ p.2)
      ∧ (∀ e ∈ (SocialDynamicsSimulation.update sdCfgBase scSt1 (.newEdge [(0, 1)] (1/2))).1.edges,
        e ∈ scSt1.edges ∨ (e.1 ≠ e.2.1 ∧ isEdge scSt1.edges e.1 e.2.1 = false))
      ∧ (∀ e ∈ (NetworkSimulationExtension.update extCfgBase vecSt1 (.newEdge [(0, 1)] (1/2))).1.edges,
        e ∈ vecSt1.edges ∨ (e.1 ≠ e.2.1 ∧ isEdge vecSt1.edges e.1 e.2.1 = false))
      ∧ ((∀ p ∈ [((0:ℕ), (1:ℕ))], isEdge vecSt1.edges p.1 p.2 = true) →
        (NetworkSimulationExtension.update extCfgBase vecSt1 (.newEdge [(0, 1)] (1/2))).1.edges
          = vecSt1.edges) := by
  have hd : ∀ p ∈ [((0:ℕ), (1:ℕ))], p.1 ≠ p.2 := by decide
  have h := c8_new_edge_branch_safety sdCfgBase extCfgBase scSt1 vecSt1 [(0, 1)] (1/2) hd
  exact ⟨hd, h.1, h.2.1, h.2.2⟩

/-- C5: after an interaction step the sampled edge is absent from the graph
if and only if its post-update (stored) weight is strictly below `0.05`
(`< 0.05` removes, `= 0.05` keeps) — in both variants.  The side conditions
say that the sampled pair occurs exactly once in the edge list, which is
the graph's no-parallel-edges invariant. -/
theorem c5_edge_removed_iff_weight_below_threshold
    (cfgS : SDConfig) (cfgV : ExtConfig) (s : ScalarState) (t : VecState)
    (u v : ℕ) (w : ℚ) (l₁ l₂ : List Edge)
    (u' v' : ℕ) (w' : ℚ) (m₁ m₂ : List Edge)
    (hs : s.edges = l₁ ++ (u, v, w) :: l₂)
    (h1 : isEdge l₁ u v = false) (h2 : isEdge l₂ u v = false)
    (ht : t.edges = m₁ ++ (u', v', w') :: m₂)
    (h1' : isEdge m₁ u' v' = false) (h2' : isEdge m₂ u' v' = false) :
    (isEdge (scalarInteract cfgS s l₁.length).edges u v = false
        ↔ scalarFinalW cfgS s l₁.length < 1/20)
      ∧ (isEdge (vecInteract cfgV t m₁.length).edges u' v' = false
        ↔ vecFinalW cfgV t m₁.length < 1/20) := by
  constructor
  · have hpick : pickEdge s.edges l₁.length = (u, v, w) := by
      simp only [pickEdge, hs, length_mod_append_cons, getD_append_cons]
    have hedges : (scalarInteract cfgS s l₁.length).edges
        = if scalarFinalW cfgS s l₁.length < 1/20 then l₁ ++ l₂
          else l₁ ++ (u, v, scalarFinalW cfgS s l₁.length) :: l₂ := by
      simp only [scalarInteract, hpick]
      rw [hs, length_mod_append_cons, eraseIdx_append_cons, set_append_cons]
    by_cases hlt : scalarFinalW cfgS s l₁.length < 1/20
    · rw [hedges, if_pos hlt]
      exact iff_of_true (by simp [isEdge_append, h1, h2]) hlt
    · rw [hedges, if_neg hlt]
      refine iff_of_false ?_ hlt
      simp [isEdge_append, isEdge_cons, h1, h2]
  · have hpick : pickEdge t.edges m₁.length = (u', v', w') := by
      simp only [pickEdge, ht, length_mod_append_cons, getD_append_cons]
    have hedges : (vecInteract cfgV t m₁.length).edges
        = if vecFinalW cfgV t m₁.length < 1/20 then m₁ ++ m₂
          else m₁ ++ (u', v', vecFinalW cfgV t m₁.length) :: m₂ := by
      simp only [vecInteract, hpick]
      rw [ht, length_mod_append_cons, eraseIdx_append_cons, set_append_cons]
    by_cases hlt : vecFinalW cfgV t m₁.length < 1/20
    · rw [hedges, if_pos hlt]
      exact iff_of_true (by simp [isEdge_append, h1', h2']) hlt
    · rw [hedges, if_neg hlt]
      refine iff_of_false ?_ hlt
      simp [isEdge_append, isEdge_cons, h1', h2']

/-- Witness for C5 on single-edge graphs (so `l₁ = l₂ = []` and the sampled
index is `0`) at the base scenario coefficients. -/
theorem c5_witness :
    scSt1.edges = [] ++ (0, 1, (1:ℚ)/2) :: [] ∧ isEdge [] 0 1 = false
      ∧ vecSt1.edges = [] ++ (0, 1, (1:ℚ)/2) :: []
      ∧ (isEdge (scalarInteract sdCfgBase scSt1 0).edges 0 1 = false
          ↔ scalarFinalW sdCfgBase scSt1 0 < 1/20)
      ∧ (isEdge (vecInteract extCfgBase vecSt1 0).edges 0 1 = false
          ↔ vecFinalW extCfgBase vecSt1 0 < 1/20) := by
  have h := c5_edge_removed_iff_weight_below_threshold sdCfgBase extCfgBase scSt1 vecSt1
    0 1 (1/2) [] [] 0 1 (1/2) [] [] rfl rfl rfl rfl rfl rfl
  exact ⟨rfl, rfl, rfl, h.1, h.2⟩

/-- Nodes other than the two endpoints keep their opinion arrays through
the two in-place opinion updates. -/
theorem vecOpAfterUV_untouched (cfg : ExtConfig) (s : VecState) (k : ℕ) (n : ℕ)
    (hu : n ≠ (pickEdge s.edges k).1) (hv : n ≠ (pickEdge s.edges k).2.1) :
    vecOpAfterUV cfg s k n = s.opinions n := by
  simp [vecOpAfterUV, vecOpAfterU, hu, hv]

/-- C2 is refuted as stated: with flexibility `delta=3` configured, the
new-edge-creation branch stores the sampled normal weight unclamped — a
sample of `1.5` (possible for a `normal(0.5, 0.2)` draw) yields an edge
whose weight lies outside `[0,1]` immediately after the step. -/
theorem c2_new_edge_weight_escapes_unit_interval :
    (NetworkSimulationExtension.update extCfgDelta3 vecStEmpty
        (.newEdge [(0, 1)] (3/2))).1.edges = [(0, 1, 3/2)]
      ∧ ¬ ((3:ℚ)/2 ≤ 1) := by
  constructor
  · rfl
  · norm_num

/-- C2 amended: with flexibility configured (`delta` truthy), the
INTERACTION branch preserves the `[0,1]` invariant — the two touched
opinion arrays and the touched edge weight are explicitly clamped, and all
other values are untouched.  (The new-edge branch does not: see the
counterexample.) -/
theorem c2_amended_flex_interaction_stays_in_unit_interval
    (cfg : ExtConfig) (s : VecState) (k : ℕ)
    (hflex : flexActive cfg.delta = true)
    (hop : ∀ n, ∀ x ∈ s.opinions n, 0 ≤ x ∧ x ≤ 1)
    (hw : ∀ e ∈ s.edges, 0 ≤ e.2.2 ∧ e.2.2 ≤ 1) :
    (∀ n, ∀ x ∈ (NetworkSimulationExtension.update cfg s (.interact k)).1.opinions n,
        0 ≤ x ∧ x ≤ 1)
      ∧ (∀ e ∈ (NetworkSimulationExtension.update cfg s (.interact k)).1.edges,
        0 ≤ e.2.2 ∧ e.2.2 ≤ 1) := by
  by_cases hemp : s.edges.isEmpty
  · simp only [NetworkSimulationExtension.update, hemp, if_true, ite_true]
    exact ⟨hop, hw⟩
  · have hfst : (NetworkSimulationExtension.update cfg s (.interact k)).1
        = { vecInteract cfg s k with step := s.step + 1 } := by
      simp [NetworkSimulationExtension.update, hemp]
    rw [hfst]
    constructor
    · intro n x hx
      simp only [vecInteract] at hx
      simp only [vecOpFinal, hflex, if_true, ite_true] at hx
      split at hx
      · exact mem_clipList hx
      · split at hx
        · exact mem_clipList hx
        · rename_i hv hu
          rw [vecOpAfterUV_untouched cfg s k n hu hv] at hx
          exact hop n x hx
    · intro e he
      simp only [vecInteract] at he
      split at he
      · exact hw e (List.mem_of_mem_eraseIdx he)
      · rcases List.mem_or_eq_of_mem_set he with hmem | heq
        · exact hw e hmem
        · subst heq
          constructor
          · simpa [vecFinalW, hflex] using clip01_nonneg (vecW1 cfg s k)
          · simpa [vecFinalW, hflex] using clip01_le_one (vecW1 cfg s k)

/-- Witness for the amended C2 at the one-edge state `vecSt1` with
`delta=3`. -/
theorem c2_witness :
    flexActive extCfgDelta3.delta = true
      ∧ (∀ n, ∀ x ∈ vecSt1.opinions n, 0 ≤ x ∧ x ≤ 1)
      ∧ (∀ e ∈ vecSt1.edges, 0 ≤ e.2.2 ∧ e.2.2 ≤ 1)
      ∧ ((∀ n, ∀ x ∈ (NetworkSimulationExtension.update extCfgDelta3 vecSt1
            (.interact 0)).1.opinions n, 0 ≤ x ∧ x ≤ 1)
        ∧ (∀ e ∈ (NetworkSimulationExtension.update extCfgDelta3 vecSt1
            (.interact 0)).1.edges, 0 ≤ e.2.2 ∧ e.2.2 ≤ 1)) := by
  have hflex : flexActive extCfgDelta3.delta = true := by
    simp [extCfgDelta3, flexActive]
  have hop : ∀ n, ∀ x ∈ vecSt1.opinions n, 0 ≤ x ∧ x ≤ 1 := by
    intro n x hx
    by_cases hn : n = 0
    · simp [vecSt1, hn] at hx
      subst hx
      norm_num
    · simp [vecSt1, hn] at hx
      subst hx
      norm_num
  have hw : ∀ e ∈ vecSt1.edges, 0 ≤ e.2.2 ∧ e.2.2 ≤ 1 := by
    intro e he
    simp [vecSt1] at he
    subst he
    norm_num
  exact ⟨hflex, hop, hw,
    c2_amended_flex_interaction_stays_in_unit_interval extCfgDelta3 vecSt1 0 hflex hop hw⟩

end NetworkSimulation
